import Mathlib

/-!
# School Forum API — verification of the authorization and content-lifecycle model

Shallow embedding of the school-forum REST backend (`src/routes/posts.js`,
`src/routes/categories.js`, `src/routes/auth.js`, `src/models/User.js`).
Route handlers are modelled after authentication (`authenticateToken`) and
express-validator have succeeded: each handler takes the acting user
(`Actor`, the code's `req.user`), the result of the database lookup
(`Option Post` for `Post.findById`, a list for category/user stores), and the
validated body fields, and returns the HTTP outcome together with the state
of the affected row after the request.
-/

namespace Forum

/-- User roles. The stored role is the closed set STUDENT/TEACHER/ADMIN
(Prisma enum in `src/models/User.js`; the route literals 'admin'/'teacher'
in `src/routes/posts.js` denote the same variants). -/
inductive Role where
  | student
  | teacher
  | admin
deriving DecidableEq, Repr

/-- The authenticated caller, `req.user` as set by the `authenticateToken`
middleware (its file is not under src; it yields the caller's id and role). -/
structure Actor where
  id : Nat
  role : Role
deriving DecidableEq, Repr

/-- An embedded reply: `src/routes/posts.js` builds replies as
`{ content: req.body.content, author: req.user._id }`. -/
structure Reply where
  content : String
  author : Nat
deriving DecidableEq, Repr

/-- A Post row. The mongoose schema file is not under src; fields follow
their use in `src/routes/posts.js` and the spec data model (§3). -/
structure Post where
  id : Nat
  title : String
  content : String
  author : Nat
  category : Nat
  tags : List String
  replies : List Reply
  likes : List Nat
  views : Nat
  isPinned : Bool
  isLocked : Bool
  isActive : Bool
  isEdited : Bool
deriving DecidableEq, Repr

/-- Outcome of a posts-route request: HTTP status, error body when present,
and the state of the post row after the request (`none` when the row does
not exist; soft delete keeps the row with `isActive := false`). -/
structure PostOutcome where
  status : Nat
  error : Option String
  db : Option Post
deriving DecidableEq, Repr

/-- `['admin', 'teacher'].includes(req.user.role)` from
`src/routes/posts.js` lines 142-143 and 181-182. -/
def isTeacherOrAdmin (r : Role) : Bool :=
  r == Role.admin || r == Role.teacher

/-- `GET /posts/:id` (`src/routes/posts.js` lines 60-80): absent or inactive
post → 404; otherwise increment `views`, save, return the post. -/
def getPostById (p? : Option Post) : PostOutcome :=
  match p? with
  | none => ⟨404, some "Post not found", none⟩
  | some p =>
    if !p.isActive then ⟨404, some "Post not found", some p⟩
    else ⟨200, none, some { p with views := p.views + 1 }⟩

/-- `PUT /posts/:id` (`src/routes/posts.js` lines 125-170): only existence is
checked (no `isActive` test); then the author-or-moderator check; then the
update sets the optional fields plus `isEdited := true`. -/
def putPost (a : Actor) (p? : Option Post)
    (title content : Option String) (tags : Option (List String)) : PostOutcome :=
  match p? with
  | none => ⟨404, some "Post not found", none⟩
  | some p =>
    if p.author != a.id && !(isTeacherOrAdmin a.role) then
      ⟨403, some "Not authorized to edit this post", some p⟩
    else
      let p1 := match title with | some t => { p with title := t } | none => p
      let p2 := match content with | some c => { p1 with content := c } | none => p1
      let p3 := match tags with | some ts => { p2 with tags := ts } | none => p2
      ⟨200, none, some { p3 with isEdited := true }⟩

/-- `DELETE /posts/:id` (`src/routes/posts.js` lines 173-193): only existence
is checked; then the author-or-moderator check; then soft delete
(`isActive := false`). -/
def deletePost (a : Actor) (p? : Option Post) : PostOutcome :=
  match p? with
  | none => ⟨404, some "Post not found", none⟩
  | some p =>
    if p.author != a.id && !(isTeacherOrAdmin a.role) then
      ⟨403, some "Not authorized to delete this post", some p⟩
    else
      ⟨200, none, some { p with isActive := false }⟩

set_option linter.unusedVariables false in
/-- `POST /posts/:id/replies` (`src/routes/posts.js` lines 196-232): absent or
inactive post → 404; locked post → 403 with no role exemption; otherwise a
reply built only from the validated content and `req.user._id` is pushed.
`bodyAuthor` models an `author` field a client may put in the request body:
the handler never reads it (hence the silenced unused-variable lint). -/
def addReply (a : Actor) (p? : Option Post)
    (content : String) (bodyAuthor : Option Nat) : PostOutcome :=
  match p? with
  | none => ⟨404, some "Post not found", none⟩
  | some p =>
    if !p.isActive then ⟨404, some "Post not found", some p⟩
    else if p.isLocked then ⟨403, some "Post is locked", some p⟩
    else ⟨201, none, some { p with replies := p.replies ++ [⟨content, a.id⟩] }⟩

/-- The like-toggle list update of `src/routes/posts.js` lines 242-249:
mongoose `includes`/`pull`/`push`; `pull` removes every occurrence of the
id, `push` appends it. -/
def likeToggle (likes : List Nat) (uid : Nat) : List Nat :=
  if likes.contains uid then likes.filter (fun x => x != uid)
  else likes ++ [uid]

/-- `POST /posts/:id/like` (`src/routes/posts.js` lines 235-261): absent or
inactive post → 404; otherwise toggle the caller's membership in `likes`.
The handler never reads `isLocked`. -/
def likePost (a : Actor) (p? : Option Post) : PostOutcome :=
  match p? with
  | none => ⟨404, some "Post not found", none⟩
  | some p =>
    if !p.isActive then ⟨404, some "Post not found", some p⟩
    else ⟨200, none, some { p with likes := likeToggle p.likes a.id }⟩

/-- Modelled from the spec: the `requireTeacherOrAdmin` middleware
(`src/middleware/auth.js` is not under src) admits exactly TEACHER and
ADMIN (`canModerate`, spec §4.3), rejecting others with Forbidden. -/
def canModerate (r : Role) : Bool :=
  isTeacherOrAdmin r

/-- `PATCH /posts/:id/pin` (`src/routes/posts.js` lines 264-281), behind
`requireTeacherOrAdmin`: only existence is checked (no `isActive` test);
`isPinned` is flipped and saved. -/
def pinPost (a : Actor) (p? : Option Post) : PostOutcome :=
  if !canModerate a.role then ⟨403, some "Forbidden", p?⟩
  else
    match p? with
    | none => ⟨404, some "Post not found", none⟩
    | some p => ⟨200, none, some { p with isPinned := !p.isPinned }⟩

/-- `PATCH /posts/:id/lock` (`src/routes/posts.js` lines 284-301), behind
`requireTeacherOrAdmin`: only existence is checked (no `isActive` test);
`isLocked` is flipped and saved. -/
def lockPost (a : Actor) (p? : Option Post) : PostOutcome :=
  if !canModerate a.role then ⟨403, some "Forbidden", p?⟩
  else
    match p? with
    | none => ⟨404, some "Post not found", none⟩
    | some p => ⟨200, none, some { p with isLocked := !p.isLocked }⟩

/-- A concrete soft-deleted post (`isActive = false`). -/
def inactivePost : Post :=
  { id := 1, title := "Old thread", content := "body", author := 7, category := 2,
    tags := [], replies := [], likes := [], views := 3,
    isPinned := false, isLocked := false, isActive := false, isEdited := false }

/-- A concrete active and locked post whose like set holds user 5. -/
def lockedActivePost : Post :=
  { id := 4, title := "Sticky thread", content := "body", author := 7, category := 2,
    tags := [], replies := [], likes := [5], views := 0,
    isPinned := false, isLocked := true, isActive := true, isEdited := false }

/-- A concrete active, unlocked post that already has one reply. -/
def activePost : Post :=
  { id := 6, title := "Open thread", content := "body", author := 7, category := 2,
    tags := [], replies := [⟨"first", 2⟩], likes := [], views := 1,
    isPinned := false, isLocked := false, isActive := true, isEdited := false }

/-- A stored user row of the Prisma `user` table, with the columns
`src/models/User.js` and `src/routes/auth.js` read; `password` holds the
bcrypt hash. -/
structure UserRec where
  id : Nat
  username : String
  email : String
  password : String
  firstName : String
  lastName : String
  role : Role
  grade : Option String
  subject : Option String
deriving DecidableEq, Repr

/-- JS truthiness of an optional string field (`!userData.grade`): absent
(`undefined`) and the empty string are falsy. -/
def falsyStr : Option String → Bool
  | none => true
  | some s => s == ""

/-- The stored spelling of a role: `src/routes/auth.js` line 36 uppercases
the request role into the Prisma enum. -/
def roleToString : Role → String
  | Role.student => "STUDENT"
  | Role.teacher => "TEACHER"
  | Role.admin => "ADMIN"

/-- The argument record of `User.create` after the register route has
resolved the role (`const userRole = role ? role.toUpperCase() : 'STUDENT'`). -/
structure CreateData where
  username : String
  email : String
  password : String
  firstName : String
  lastName : String
  role : Role
  grade : Option String
  subject : Option String
deriving DecidableEq, Repr

/-- `User.create` (`src/models/User.js` lines 6-34): a STUDENT without a
truthy `grade` or a TEACHER without a truthy `subject` throws before
`prisma.user.create` runs; otherwise the row is created with the hashed
password, trimmed names and lowercased email. `hash` abstracts bcrypt and
`newId` the id the database assigns. -/
def userCreate (hash : String → String) (newId : Nat) (d : CreateData) :
    Except String UserRec :=
  if d.role == Role.student && falsyStr d.grade then
    Except.error "Grade is required for students"
  else if d.role == Role.teacher && falsyStr d.subject then
    Except.error "Subject is required for teachers"
  else
    Except.ok
      { id := newId, username := d.username.trim, email := d.email.trim.toLower,
        password := hash d.password, firstName := d.firstName.trim,
        lastName := d.lastName.trim, role := d.role,
        grade := d.grade, subject := d.subject }

/-- `User.findByEmail` (`src/models/User.js` lines 47-54): unique lookup of
the lowercased email. -/
def findByEmail (store : List UserRec) (email : String) : Option UserRec :=
  store.find? (fun u => u.email == email.toLower)

/-- `User.findByUsername` (`src/models/User.js` lines 57-64). -/
def findByUsername (store : List UserRec) (username : String) : Option UserRec :=
  store.find? (fun u => u.username == username)

/-- The register request body after express-validator has passed
(`role` is absent or one of the three enum spellings). -/
structure RegisterInput where
  username : String
  email : String
  password : String
  firstName : String
  lastName : String
  role : Option Role
  grade : Option String
  subject : Option String
deriving DecidableEq, Repr

/-- Outcome of an auth-route request: status, error body, and the serialized
user object of a success body. -/
structure AuthResult where
  status : Nat
  error : Option String
  user : Option (List (String × String))
deriving DecidableEq, Repr

/-- The user object the register route returns
(`src/routes/auth.js` lines 54-60): id, username, email, fullName, role. -/
def registerUserPayload (u : UserRec) : List (String × String) :=
  [("id", toString u.id), ("username", u.username), ("email", u.email),
   ("fullName", u.firstName ++ " " ++ u.lastName), ("role", roleToString u.role)]

/-- `POST /auth/register` (`src/routes/auth.js` lines 10-66): duplicate email
then duplicate username checks, each answered with 400; then `User.create`,
whose thrown role-validation error the catch block surfaces as
500 "Server error: " + message; success is 201 with the created user
appended to the store. -/
def register (hash : String → String) (newId : Nat) (store : List UserRec)
    (inp : RegisterInput) : AuthResult × List UserRec :=
  match findByEmail store inp.email with
  | some _ => (⟨400, some "User already exists", none⟩, store)
  | none =>
    match findByUsername store inp.username with
    | some _ => (⟨400, some "Username already taken", none⟩, store)
    | none =>
      let userRole := inp.role.getD Role.student
      match userCreate hash newId
          ⟨inp.username, inp.email, inp.password, inp.firstName, inp.lastName,
            userRole, inp.grade, inp.subject⟩ with
      | Except.error msg => (⟨500, some ("Server error: " ++ msg), none⟩, store)
      | Except.ok u => (⟨201, none, some (registerUserPayload u)⟩, store ++ [u])

/-- The user object the login route returns (`src/routes/auth.js` lines
96-100): username, email, fullName (`fullName` is the mongoose virtual
`firstName + ' ' + lastName`, spec §3). -/
def loginUserPayload (u : UserRec) : List (String × String) :=
  [("username", u.username), ("email", u.email),
   ("fullName", u.firstName ++ " " ++ u.lastName)]

set_option linter.unusedVariables false in
/-- `POST /auth/login` (`src/routes/auth.js` lines 69-105): line 81 calls
`User.findOne({ email })`, a static the Prisma User class of
`src/models/User.js` does not define (it has `findByEmail`), and line 86
would call an instance `comparePassword` that is likewise missing (only a
two-argument static exists). Every request that passes validation therefore
throws a TypeError and the catch block (line 103) answers
500 "Server error", for any store, email and password. -/
def login (store : List UserRec) (email password : String) : AuthResult :=
  ⟨500, some "Server error", none⟩

/-- The branch logic written in the login handler (`src/routes/auth.js`
lines 81-101) — email lookup, then password verification, both failures
answered with the identical 400 "Invalid credentials" — dead code behind
the `findOne` TypeError. `verify` abstracts `bcrypt.compare`. -/
def loginWrittenBranches (verify : String → String → Bool) (store : List UserRec)
    (email password : String) : AuthResult :=
  match store.find? (fun u => u.email == email) with
  | none => ⟨400, some "Invalid credentials", none⟩
  | some u =>
    if !(verify password u.password) then ⟨400, some "Invalid credentials", none⟩
    else ⟨200, none, some (loginUserPayload u)⟩

/-- Serialization of a user row as the Prisma spread would enumerate it,
password column included. -/
def userFields (u : UserRec) : List (String × String) :=
  [("id", toString u.id), ("username", u.username), ("email", u.email),
   ("password", u.password), ("firstName", u.firstName), ("lastName", u.lastName),
   ("role", roleToString u.role), ("grade", u.grade.getD ""),
   ("subject", u.subject.getD "")]

/-- `User.toJSON` (`src/models/User.js` lines 124-133): the destructuring
`const { password, ...userWithoutPassword } = user` drops the password
column and `fullName` is added as firstName, space, lastName. -/
def userToJSON (u : UserRec) : List (String × String) :=
  (userFields u).filter (fun kv => kv.1 != "password")
    ++ [("fullName", u.firstName ++ " " ++ u.lastName)]

/-- The `createdBy` object `Category.toJSON` embeds (second model class in
`src/models/User.js`, lines 248-260): id, username, firstName, lastName,
fullName. -/
def categoryCreatorPayload (u : UserRec) : List (String × String) :=
  [("id", toString u.id), ("username", u.username), ("firstName", u.firstName),
   ("lastName", u.lastName),
   ("fullName", u.firstName ++ " " ++ u.lastName)]

/-- A Category row as used by `src/routes/categories.js`. -/
structure Category where
  id : Nat
  name : String
  description : String
  color : String
  icon : String
  createdBy : Nat
  isActive : Bool
deriving DecidableEq, Repr

/-- Outcome of a category mutation: status, error body, and the category
store after the request. -/
structure CategoryOutcome where
  status : Nat
  error : Option String
  store : List Category
deriving DecidableEq, Repr

/-- Outcome of a category read: status, error body, returned category. -/
structure CategoryGetOutcome where
  status : Nat
  error : Option String
  category : Option Category
deriving DecidableEq, Repr

/-- Outcome of the category list route: status, error body, returned list
when present. -/
structure CategoryListOutcome where
  status : Nat
  error : Option String
  categories : Option (List Category)
deriving DecidableEq, Repr

set_option linter.unusedVariables false in
/-- `GET /categories` (`src/routes/categories.js` lines 9-20): the handler
chains `.populate('createdBy', ...)` onto the Promise returned by
`Category.find` of the staged Prisma Category class (the second model class
in `src/models/User.js`); a Promise has no `populate`, so the handler
throws a TypeError before any lookup and the catch answers
500 "Server error" for every request. -/
def getCategories (store : List Category) : CategoryListOutcome :=
  ⟨500, some "Server error", none⟩

/-- The `{ isActive: true }` filter the list route passes to
`Category.find` (line 11) — the written query, never reached. -/
def categoriesWrittenFilter (store : List Category) : List Category :=
  store.filter (fun c => c.isActive)

set_option linter.unusedVariables false in
/-- `GET /categories/:id` (`src/routes/categories.js` lines 23-37): the
handler chains `.populate` onto the Promise returned by the Prisma
`Category.findById` (lines 25-27), so it throws a TypeError and answers
500 "Server error" for every id. -/
def getCategoryById (store : List Category) (cid : Nat) : CategoryGetOutcome :=
  ⟨500, some "Server error", none⟩

/-- The 404/200 branch logic written in the get-by-id handler (lines 29-33),
dead behind the `.populate` TypeError: a plain existence test, with no
`isActive` check. -/
def getCategoryByIdWrittenBranches (store : List Category) (cid : Nat) : CategoryGetOutcome :=
  match store.find? (fun c => c.id == cid) with
  | none => ⟨404, some "Category not found", none⟩
  | some c => ⟨200, none, some c⟩

set_option linter.unusedVariables false in
/-- `POST /categories` (`src/routes/categories.js` lines 40-78), behind
`requireTeacherOrAdmin`: the handler's first statement (line 55) calls
`Category.findOne({ name })`, a static the Prisma Category class does not
define (it has `findByName`, which the route never calls); the TypeError
is caught and answered 500 "Server error" with the store untouched —
nothing is persisted, as the throw precedes any create. -/
def createCategory (a : Actor) (store : List Category)
    (name description color icon : String) : CategoryOutcome :=
  if !canModerate a.role then ⟨403, some "Forbidden", store⟩
  else ⟨500, some "Server error", store⟩

/-- The duplicate-check-then-create logic written in the create handler
(lines 54-70) under the mongoose API it was written for (`findOne` over
every stored category with no `isActive` filter, then
`new Category({...}).save()` with schema default `isActive = true`,
spec §4.4 create → Active) — dead code behind the `findOne` TypeError. -/
def createCategoryWrittenBranches (a : Actor) (store : List Category) (newId : Nat)
    (name description color icon : String) : CategoryOutcome :=
  match store.find? (fun c => c.name == name) with
  | some _ => ⟨400, some "Category already exists", store⟩
  | none => ⟨201, none, store ++ [⟨newId, name, description, color, icon, a.id, true⟩]⟩

/-- `DELETE /categories/:id` (`src/routes/categories.js` lines 124-138),
behind `requireTeacherOrAdmin`: existence check, then soft delete
(`isActive := false`). -/
def deleteCategory (a : Actor) (store : List Category) (cid : Nat) : CategoryOutcome :=
  if !canModerate a.role then ⟨403, some "Forbidden", store⟩
  else
    match store.find? (fun c => c.id == cid) with
    | none => ⟨404, some "Category not found", store⟩
    | some _ =>
      ⟨200, none,
        store.map (fun x => if x.id == cid then { x with isActive := false } else x)⟩

/-- A concrete soft-deleted category. -/
def inactiveCategory : Category :=
  { id := 1, name := "Archive", description := "old", color := "#FFFFFF",
    icon := "box", createdBy := 7, isActive := false }

/-- A concrete stand-in for the bcrypt hash, used only to instantiate
theorems at concrete inputs. -/
def demoHash : String → String := fun s => s ++ "h"

/-- A concrete stand-in for `bcrypt.compare`, used only to instantiate
theorems at concrete inputs. -/
def demoVerify : String → String → Bool := fun p h => p == h

/-- A concrete stored user. -/
def demoAlice : UserRec :=
  { id := 1, username := "alice", email := "a@x.y", password := "hash1",
    firstName := "Alice", lastName := "Ann", role := Role.student,
    grade := some "10", subject := none }

/-- A concrete STUDENT registration that supplies no grade. -/
def studentNoGrade : RegisterInput :=
  { username := "stud1", email := "s@x.y", password := "secret1",
    firstName := "Sam", lastName := "Lee", role := some Role.student,
    grade := none, subject := none }

/-- A concrete TEACHER registration with subject Math. -/
def teacherMath : RegisterInput :=
  { username := "teach1", email := "t@x.y", password := "secret1",
    firstName := "Tina", lastName := "Ray", role := some Role.teacher,
    grade := none, subject := some "Math" }

end Forum

namespace Forum

/-- The deny guard shared by update and delete
(`post.author.toString() !== req.user._id.toString() &&
!['admin','teacher'].includes(req.user.role)`) is false exactly when the
actor is the author or a TEACHER/ADMIN. -/
lemma modify_guard_false_iff (aid pauthor : Nat) (arole : Role) :
    ((pauthor != aid && !(isTeacherOrAdmin arole)) = false) ↔
      (aid = pauthor ∨ arole = Role.teacher ∨ arole = Role.admin) := by
  by_cases h : pauthor = aid
  · subst h
    cases arole <;> simp [isTeacherOrAdmin]
  · have h2 : (pauthor != aid) = true := bne_iff_ne.mpr h
    have h3 : aid ≠ pauthor := fun hh => h hh.symm
    cases arole <;> simp [isTeacherOrAdmin, h2, h3]

/-- C1: for update and delete on an existing post, the outcome is 200 or 403,
and it is 200 exactly when the actor is the author or a TEACHER/ADMIN; a
non-author STUDENT is denied with 403. -/
theorem post_modify_authorization (a : Actor) (p : Post)
    (title content : Option String) (tags : Option (List String)) :
    ((putPost a (some p) title content tags).status = 200 ∨
      (putPost a (some p) title content tags).status = 403)
    ∧ ((putPost a (some p) title content tags).status = 200 ↔
        (a.id = p.author ∨ a.role = Role.teacher ∨ a.role = Role.admin))
    ∧ ((deletePost a (some p)).status = 200 ∨ (deletePost a (some p)).status = 403)
    ∧ ((deletePost a (some p)).status = 200 ↔
        (a.id = p.author ∨ a.role = Role.teacher ∨ a.role = Role.admin)) := by
  have hiff := modify_guard_false_iff a.id p.author a.role
  cases hc : (p.author != a.id && !(isTeacherOrAdmin a.role)) with
  | false =>
    have hR := hiff.mp hc
    simp only [putPost, deletePost, hc]
    simp [hR]
  | true =>
    have hR : ¬(a.id = p.author ∨ a.role = Role.teacher ∨ a.role = Role.admin) := by
      intro hr
      rw [hiff.mpr hr] at hc
      cases hc
    simp only [putPost, deletePost, hc]
    simp [hR]

/-- C2 counterexample: pinning a soft-deleted post as a TEACHER succeeds with
200 and flips `isPinned`, instead of failing with 404 and leaving the post
unchanged — `PATCH /:id/pin` checks only existence, not `isActive`. -/
theorem softdeleted_pin_succeeds_cex :
    (pinPost ⟨5, Role.teacher⟩ (some inactivePost)).status = 200
    ∧ (pinPost ⟨5, Role.teacher⟩ (some inactivePost)).db ≠ some inactivePost := by
  constructor
  · rfl
  · intro h
    have : (some { inactivePost with isPinned := true } : Option Post) = some inactivePost := h
    simp [inactivePost] at this

/-- C2 amended: on a soft-deleted post, get-by-id, reply append and like
toggle fail with 404 and leave the post unchanged for every actor, while
pin, lock, update and delete check only existence: a moderator's pin,
lock, update and delete all proceed with 200, and so do the author's
update and delete, whatever the author's role. -/
theorem softdeleted_post_reachability (a : Actor) (p : Post) (c : String) (ba : Option Nat)
    (hA : p.isActive = false) :
    getPostById (some p) = ⟨404, some "Post not found", some p⟩
    ∧ addReply a (some p) c ba = ⟨404, some "Post not found", some p⟩
    ∧ likePost a (some p) = ⟨404, some "Post not found", some p⟩
    ∧ (canModerate a.role = true →
        (pinPost a (some p)).status = 200
        ∧ (lockPost a (some p)).status = 200
        ∧ (putPost a (some p) none none none).status = 200
        ∧ (deletePost a (some p)).status = 200)
    ∧ (a.id = p.author →
        (putPost a (some p) none none none).status = 200
        ∧ (deletePost a (some p)).status = 200) := by
  refine ⟨?_, ?_, ?_, ?_, ?_⟩
  · simp [getPostById, hA]
  · simp [addReply, hA]
  · simp [likePost, hA]
  · intro hmod
    have hg : isTeacherOrAdmin a.role = true := hmod
    refine ⟨?_, ?_, ?_, ?_⟩ <;>
      simp [pinPost, lockPost, putPost, deletePost, canModerate, hg]
  · intro hown
    constructor <;> simp [putPost, deletePost, ← hown]

/-- Witness for the C2 amended theorem: a STUDENT's reply/like/get on a
soft-deleted post answer 404, the STUDENT author's update and delete
proceed, and a TEACHER's pin and lock proceed. -/
theorem softdeleted_post_reachability_witness :
    (getPostById (some inactivePost) = ⟨404, some "Post not found", some inactivePost⟩
      ∧ addReply ⟨3, Role.student⟩ (some inactivePost) "hi" none
          = ⟨404, some "Post not found", some inactivePost⟩
      ∧ likePost ⟨3, Role.student⟩ (some inactivePost)
          = ⟨404, some "Post not found", some inactivePost⟩
      ∧ (putPost ⟨7, Role.student⟩ (some inactivePost) none none none).status = 200
      ∧ (deletePost ⟨7, Role.student⟩ (some inactivePost)).status = 200)
    ∧ ((pinPost ⟨5, Role.teacher⟩ (some inactivePost)).status = 200
      ∧ (lockPost ⟨5, Role.teacher⟩ (some inactivePost)).status = 200) :=
  have hs := softdeleted_post_reachability ⟨3, Role.student⟩ inactivePost "hi" none rfl
  have ha := softdeleted_post_reachability ⟨7, Role.student⟩ inactivePost "hi" none rfl
  have ht := softdeleted_post_reachability ⟨5, Role.teacher⟩ inactivePost "hi" none rfl
  ⟨⟨hs.1, hs.2.1, hs.2.2.1, (ha.2.2.2.2 rfl).1, (ha.2.2.2.2 rfl).2⟩,
    ⟨(ht.2.2.2.1 rfl).1, (ht.2.2.2.1 rfl).2.1⟩⟩

/-- Filtering out an id not in the list leaves the list unchanged. -/
lemma filter_ne_of_not_mem (l : List Nat) (u : Nat) (h : u ∉ l) :
    l.filter (fun x => x != u) = l := by
  induction l with
  | nil => rfl
  | cons a t ih =>
    have ha : a ≠ u := fun hh => h (hh ▸ List.mem_cons_self a t)
    have ht : u ∉ t := fun hh => h (List.mem_cons_of_mem a hh)
    simp [List.filter_cons, ha, ih ht]

/-- On a duplicate-free list, filtering out a member drops exactly one
element. -/
lemma length_filter_ne_of_nodup (l : List Nat) (u : Nat)
    (hnd : l.Nodup) (hu : u ∈ l) :
    (l.filter (fun x => x != u)).length + 1 = l.length := by
  induction l with
  | nil => cases hu
  | cons a t ih =>
    rcases List.mem_cons.mp hu with h | h
    · have hat : a ∉ t := (List.nodup_cons.mp hnd).1
      rw [← h] at hat
      simp [List.filter_cons, ← h, filter_ne_of_not_mem t u hat]
    · have ha : a ≠ u := by
        intro hh
        exact (List.nodup_cons.mp hnd).1 (hh ▸ h)
      have := ih (List.nodup_cons.mp hnd).2 h
      simp [List.filter_cons, ha]
      omega

/-- The toggle flips the toggling user's membership. -/
lemma mem_likeToggle_self (l : List Nat) (u : Nat) :
    u ∈ likeToggle l u ↔ u ∉ l := by
  unfold likeToggle
  by_cases h : u ∈ l
  · simp [h]
  · simp [h]

/-- The toggle leaves every other user's membership unchanged. -/
lemma mem_likeToggle_other (l : List Nat) (u x : Nat) (hx : x ≠ u) :
    x ∈ likeToggle l u ↔ x ∈ l := by
  unfold likeToggle
  by_cases h : u ∈ l
  · simp [h, hx]
  · simp [h, hx]

/-- Toggling twice restores every user's membership. -/
lemma likeToggle_twice_mem (l : List Nat) (u x : Nat) :
    x ∈ likeToggle (likeToggle l u) u ↔ x ∈ l := by
  by_cases hx : x = u
  · subst hx
    rw [mem_likeToggle_self, mem_likeToggle_self]
    by_cases h : x ∈ l <;> simp [h]
  · rw [mem_likeToggle_other _ _ _ hx, mem_likeToggle_other _ _ _ hx]

/-- Toggling twice a user who was not in the like set restores the list
exactly. -/
lemma likeToggle_twice_of_not_mem (l : List Nat) (u : Nat) (h : u ∉ l) :
    likeToggle (likeToggle l u) u = l := by
  have h1 : likeToggle l u = l ++ [u] := by
    unfold likeToggle; simp [h]
  rw [h1]
  unfold likeToggle
  have hm : u ∈ l ++ [u] := by simp
  simp [hm, List.filter_append, filter_ne_of_not_mem l u h]

/-- On a duplicate-free like set, toggling twice restores the count. -/
lemma likeToggle_twice_length (l : List Nat) (u : Nat) (hnd : l.Nodup) :
    (likeToggle (likeToggle l u) u).length = l.length := by
  by_cases h : u ∈ l
  · have h1 : likeToggle l u = l.filter (fun x => x != u) := by
      unfold likeToggle; simp [h]
    have h2 : u ∉ likeToggle l u := (mem_likeToggle_self l u).not.mpr (by simp [h])
    have h3 : likeToggle (likeToggle l u) u = likeToggle l u ++ [u] := by
      generalize hq : likeToggle l u = t1 at h2
      unfold likeToggle
      simp [h2]
    rw [h3, h1]
    simp only [List.length_append, List.length_cons, List.length_nil]
    have := length_filter_ne_of_nodup l u hnd h
    omega
  · rw [likeToggle_twice_of_not_mem l u h]

/-- C3: on an active post (whatever its lock state, which the handler never
reads), the like toggle succeeds with 200, saves the toggled like set,
removes the caller if present and adds them if absent, leaves every other
user's membership unchanged, and applying it twice restores the original
membership and — on a duplicate-free like set — the original count. -/
theorem like_toggle_spec (a : Actor) (p : Post)
    (hA : p.isActive = true) (hnd : p.likes.Nodup) :
    (likePost a (some p)).status = 200
    ∧ (likePost a (some p)).db = some { p with likes := likeToggle p.likes a.id }
    ∧ (a.id ∈ likeToggle p.likes a.id ↔ a.id ∉ p.likes)
    ∧ (∀ x, x ≠ a.id → (x ∈ likeToggle p.likes a.id ↔ x ∈ p.likes))
    ∧ (∀ x, x ∈ likeToggle (likeToggle p.likes a.id) a.id ↔ x ∈ p.likes)
    ∧ (likeToggle (likeToggle p.likes a.id) a.id).length = p.likes.length := by
  refine ⟨?_, ?_, mem_likeToggle_self _ _, fun x hx => mem_likeToggle_other _ _ _ hx,
    fun x => likeToggle_twice_mem _ _ _, likeToggle_twice_length _ _ hnd⟩
  · simp [likePost, hA]
  · simp [likePost, hA]

/-- Witness for C3 at a concrete input: a STUDENT toggles a like on an
active, locked post. -/
theorem like_toggle_spec_witness :
    lockedActivePost.isActive = true ∧ lockedActivePost.likes.Nodup
    ∧ ((likePost ⟨3, Role.student⟩ (some lockedActivePost)).status = 200
      ∧ (likePost ⟨3, Role.student⟩ (some lockedActivePost)).db
          = some { lockedActivePost with likes := likeToggle lockedActivePost.likes 3 }
      ∧ (3 ∈ likeToggle lockedActivePost.likes 3 ↔ 3 ∉ lockedActivePost.likes)
      ∧ (∀ x, x ≠ 3 → (x ∈ likeToggle lockedActivePost.likes 3 ↔ x ∈ lockedActivePost.likes))
      ∧ (∀ x, x ∈ likeToggle (likeToggle lockedActivePost.likes 3) 3 ↔ x ∈ lockedActivePost.likes)
      ∧ (likeToggle (likeToggle lockedActivePost.likes 3) 3).length
          = lockedActivePost.likes.length) :=
  ⟨rfl, by decide, like_toggle_spec ⟨3, Role.student⟩ lockedActivePost rfl (by decide)⟩

/-- C4: a reply append on a locked post fails without modifying the post for
every actor — the lock branch carries no role exemption — and reply append
succeeds (201) exactly when the post is active and unlocked. -/
theorem reply_locked_blocks_everyone (a : Actor) (p : Post) (c : String) (ba : Option Nat) :
    (p.isLocked = true → (addReply a (some p) c ba).status ≠ 201
      ∧ (addReply a (some p) c ba).db = some p)
    ∧ ((addReply a (some p) c ba).status = 201 ↔
        (p.isActive = true ∧ p.isLocked = false)) := by
  cases hA : p.isActive <;> cases hL : p.isLocked <;> simp [addReply, hA, hL]

/-- Witness for C4: an ADMIN's reply to a locked active post is rejected and
the post is unchanged. -/
theorem reply_locked_blocks_everyone_witness :
    (addReply ⟨9, Role.admin⟩ (some lockedActivePost) "hi" none).status ≠ 201
    ∧ (addReply ⟨9, Role.admin⟩ (some lockedActivePost) "hi" none).db
        = some lockedActivePost :=
  (reply_locked_blocks_everyone ⟨9, Role.admin⟩ lockedActivePost "hi" none).1 rfl

/-- C10: a successful reply append stores exactly the validated content with
the authenticated caller's id as author, appended after the unchanged
existing replies; a client-supplied body `author` field has no effect. -/
theorem reply_append_spec (a : Actor) (p : Post) (c : String) (ba ba2 : Option Nat)
    (hA : p.isActive = true) (hL : p.isLocked = false) :
    addReply a (some p) c ba
      = ⟨201, none, some { p with replies := p.replies ++ [⟨c, a.id⟩] }⟩
    ∧ addReply a (some p) c ba = addReply a (some p) c ba2 := by
  simp [addReply, hA, hL]

/-- Witness for C10: user 3 replies with a spoofed body author 99; the stored
reply is authored by 3 and the earlier reply is untouched. -/
theorem reply_append_spec_witness :
    addReply ⟨3, Role.student⟩ (some activePost) "hello" (some 99)
      = ⟨201, none, some { activePost with replies := activePost.replies ++ [⟨"hello", 3⟩] }⟩
    ∧ addReply ⟨3, Role.student⟩ (some activePost) "hello" (some 99)
      = addReply ⟨3, Role.student⟩ (some activePost) "hello" none :=
  reply_append_spec ⟨3, Role.student⟩ activePost "hello" (some 99) none rfl rfl

/-- C5: the login route cannot produce the claimed 400 "Invalid credentials"
responses — the `User.findOne` call throws for every request and the catch
answers the identical 500 "Server error" — while the handler's own written
but unreachable branches answer exactly as the claim says, identically for
an unknown email and for a wrong password. -/
theorem login_invalid_credentials_bug (verify : String → String → Bool)
    (store store2 : List UserRec) (email pw email2 pw2 : String) (u : UserRec)
    (hu : store.find? (fun x => x.email == email) = some u)
    (hbad : verify pw u.password = false)
    (hnone : store2.find? (fun x => x.email == email2) = none) :
    login store email pw = ⟨500, some "Server error", none⟩
    ∧ login store2 email2 pw2 = login store email pw
    ∧ loginWrittenBranches verify store email pw
        = ⟨400, some "Invalid credentials", none⟩
    ∧ loginWrittenBranches verify store2 email2 pw2
        = loginWrittenBranches verify store email pw := by
  simp [login, loginWrittenBranches, hu, hbad, hnone]

/-- Witness for C5: wrong password for Alice and a lookup of an unknown
email; the route answers 500 on both, the dead branches 400 on both. -/
theorem login_invalid_credentials_bug_witness :
    login [demoAlice] "a@x.y" "wrong" = ⟨500, some "Server error", none⟩
    ∧ login [] "b@x.y" "whatever" = login [demoAlice] "a@x.y" "wrong"
    ∧ loginWrittenBranches demoVerify [demoAlice] "a@x.y" "wrong"
        = ⟨400, some "Invalid credentials", none⟩
    ∧ loginWrittenBranches demoVerify [] "b@x.y" "whatever"
        = loginWrittenBranches demoVerify [demoAlice] "a@x.y" "wrong" :=
  login_invalid_credentials_bug demoVerify [demoAlice] [] "a@x.y" "wrong" "b@x.y"
    "whatever" demoAlice (by decide) (by decide) rfl

/-- C6 counterexample: registering a STUDENT without a grade against an
empty store does fail before persistence (the store stays empty), but the
response status is 500 (the route's catch block), not the 400 the claim
states. -/
theorem register_student_no_grade_cex :
    (register demoHash 1 [] studentNoGrade).1.status = 500
    ∧ (register demoHash 1 [] studentNoGrade).1.status ≠ 400
    ∧ (register demoHash 1 [] studentNoGrade).2 = [] := by
  refine ⟨rfl, by decide, rfl⟩

/-- C6 amended: a STUDENT registration without a truthy grade or a TEACHER
registration without a truthy subject never persists a user (the store is
unchanged and the status is not 201); when the uniqueness checks pass the
STUDENT case surfaces as 500 "Server error: Grade is required for
students" (thrown by `User.create` before `prisma.user.create`); a TEACHER
registration with a subject succeeds with 201 and persists a row whose
role is TEACHER. -/
theorem register_role_validation (hash : String → String) (newId : Nat)
    (store : List UserRec) (inp : RegisterInput) :
    ((inp.role.getD Role.student = Role.student ∧ falsyStr inp.grade = true) ∨
        (inp.role.getD Role.student = Role.teacher ∧ falsyStr inp.subject = true) →
      (register hash newId store inp).2 = store
      ∧ (register hash newId store inp).1.status ≠ 201)
    ∧ (findByEmail store inp.email = none → findByUsername store inp.username = none →
        inp.role.getD Role.student = Role.student → falsyStr inp.grade = true →
        (register hash newId store inp).1
          = ⟨500, some "Server error: Grade is required for students", none⟩)
    ∧ (findByEmail store inp.email = none → findByUsername store inp.username = none →
        inp.role.getD Role.student = Role.teacher → falsyStr inp.subject = false →
        (register hash newId store inp).1.status = 201
        ∧ ∃ u, (register hash newId store inp).2 = store ++ [u]
            ∧ u.role = Role.teacher) := by
  refine ⟨?_, ?_, ?_⟩
  · intro hviol
    cases he : findByEmail store inp.email with
    | some u0 => simp [register, he]
    | none =>
      cases hn : findByUsername store inp.username with
      | some u0 => simp [register, he, hn]
      | none =>
        rcases hviol with ⟨hr, hg⟩ | ⟨hr, hs⟩
        · simp [register, he, hn, userCreate, hr, hg]
        · simp [register, he, hn, userCreate, hr, hs]
  · intro he hn hr hg
    simp [register, he, hn, userCreate, hr, hg]
  · intro he hn hr hs
    simp [register, he, hn, userCreate, hr, hs]

/-- Witness for C6 amended: the student-without-grade branches at a concrete
input, and the teacher-with-subject success branch. -/
theorem register_role_validation_witness :
    ((register demoHash 1 [] studentNoGrade).2 = []
      ∧ (register demoHash 1 [] studentNoGrade).1.status ≠ 201)
    ∧ (register demoHash 1 [] studentNoGrade).1
        = ⟨500, some "Server error: Grade is required for students", none⟩
    ∧ ((register demoHash 2 [] teacherMath).1.status = 201
      ∧ ∃ u, (register demoHash 2 [] teacherMath).2 = [] ++ [u]
          ∧ u.role = Role.teacher) :=
  ⟨(register_role_validation demoHash 1 [] studentNoGrade).1 (Or.inl ⟨rfl, rfl⟩),
   (register_role_validation demoHash 1 [] studentNoGrade).2.1 rfl rfl rfl rfl,
   (register_role_validation demoHash 2 [] teacherMath).2.2 rfl rfl rfl rfl⟩

/-- C7: the category create route cannot produce the claimed 400-duplicate or
201-create outcomes — `Category.findOne` throws for every request and the
catch answers 500 "Server error" with the store (and so its count)
unchanged — while the handler's written but unreachable duplicate check
rejects exactly the names already stored, active or not, and otherwise
appends the new category. -/
theorem category_create_bug (a : Actor) (store : List Category) (newId : Nat)
    (name description color icon : String) (hmod : canModerate a.role = true) :
    createCategory a store name description color icon
      = ⟨500, some "Server error", store⟩
    ∧ ((∃ c ∈ store, c.name = name) →
      createCategoryWrittenBranches a store newId name description color icon
        = ⟨400, some "Category already exists", store⟩)
    ∧ ((∀ c ∈ store, c.name ≠ name) →
      createCategoryWrittenBranches a store newId name description color icon
        = ⟨201, none, store ++ [⟨newId, name, description, color, icon, a.id, true⟩]⟩) := by
  refine ⟨by simp [createCategory, hmod], ?_, ?_⟩
  · rintro ⟨c, hc, hname⟩
    cases hf : store.find? (fun c => c.name == name) with
    | none =>
      exfalso
      have := List.find?_eq_none.mp hf c hc
      simp [hname] at this
    | some c2 => simp [createCategoryWrittenBranches, hf]
  · intro hall
    have hf : store.find? (fun c => c.name == name) = none :=
      List.find?_eq_none.mpr (fun x hx => by simp [hall x hx])
    simp [createCategoryWrittenBranches, hf]

/-- Witness for C7: an ADMIN's create answers 500 with the store untouched;
the dead branches would reject the soft-deleted duplicate name and accept a
fresh one. -/
theorem category_create_bug_witness :
    createCategory ⟨9, Role.admin⟩ [inactiveCategory] "Math" "d" "#000000" "i"
      = ⟨500, some "Server error", [inactiveCategory]⟩
    ∧ createCategoryWrittenBranches ⟨9, Role.admin⟩ [inactiveCategory] 2 "Archive"
        "d" "#000000" "i"
      = ⟨400, some "Category already exists", [inactiveCategory]⟩
    ∧ createCategoryWrittenBranches ⟨9, Role.admin⟩ [] 2 "Math" "d" "#000000" "i"
      = ⟨201, none, [⟨2, "Math", "d", "#000000", "i", 9, true⟩]⟩ :=
  ⟨(category_create_bug ⟨9, Role.admin⟩ [inactiveCategory] 2 "Math" "d" "#000000" "i"
      rfl).1,
   (category_create_bug ⟨9, Role.admin⟩ [inactiveCategory] 2 "Archive" "d" "#000000" "i"
      rfl).2.1 ⟨inactiveCategory, by simp, rfl⟩,
   (category_create_bug ⟨9, Role.admin⟩ [] 2 "Math" "d" "#000000" "i" rfl).2.2
      (by simp)⟩

/-- C8: every serialized user object — `User.toJSON`, the register response
user, the login response user, the category `createdBy` object — carries no
password key and carries fullName = firstName, space, lastName. -/
theorem user_serialization_safe (u : UserRec) :
    (List.lookup "password" (userToJSON u) = none
      ∧ List.lookup "fullName" (userToJSON u) = some (u.firstName ++ " " ++ u.lastName))
    ∧ (List.lookup "password" (registerUserPayload u) = none
      ∧ List.lookup "fullName" (registerUserPayload u)
          = some (u.firstName ++ " " ++ u.lastName))
    ∧ (List.lookup "password" (loginUserPayload u) = none
      ∧ List.lookup "fullName" (loginUserPayload u)
          = some (u.firstName ++ " " ++ u.lastName))
    ∧ (List.lookup "password" (categoryCreatorPayload u) = none
      ∧ List.lookup "fullName" (categoryCreatorPayload u)
          = some (u.firstName ++ " " ++ u.lastName)) :=
  ⟨⟨rfl, rfl⟩, ⟨rfl, rfl⟩, ⟨rfl, rfl⟩, ⟨rfl, rfl⟩⟩

/-- C9 counterexample: get-by-id on a concrete soft-deleted category answers
500 "Server error" (the `.populate` chain throws), not the 404 the claim
states. -/
theorem softdeleted_category_get_cex :
    getCategoryById [inactiveCategory] 1 = ⟨500, some "Server error", none⟩
    ∧ (getCategoryById [inactiveCategory] 1).status ≠ 404
    ∧ inactiveCategory.isActive = false :=
  ⟨rfl, by decide, rfl⟩

/-- C9 amended: both category read routes answer 500 "Server error" for every
request, so a soft-deleted category is neither listed nor returned — but
not via the claimed 404; and in the written, unreachable logic the list
query filters to exactly the active categories while get-by-id checks
existence only, returning a soft-deleted category with 200. -/
theorem category_reads_unreachable (store : List Category) (cid : Nat) (c : Category)
    (hfind : store.find? (fun x => x.id == cid) = some c) :
    getCategoryById store cid = ⟨500, some "Server error", none⟩
    ∧ getCategories store = ⟨500, some "Server error", none⟩
    ∧ (∀ x, x ∈ categoriesWrittenFilter store ↔ (x ∈ store ∧ x.isActive = true))
    ∧ getCategoryByIdWrittenBranches store cid = ⟨200, none, some c⟩ := by
  refine ⟨rfl, rfl, ?_, ?_⟩
  · intro x
    simp [categoriesWrittenFilter, List.mem_filter]
  · simp [getCategoryByIdWrittenBranches, hfind]

/-- Witness for C9 amended at a concrete store holding one soft-deleted
category. -/
theorem category_reads_unreachable_witness :
    getCategoryById [inactiveCategory] 1 = ⟨500, some "Server error", none⟩
    ∧ getCategories [inactiveCategory] = ⟨500, some "Server error", none⟩
    ∧ (∀ x, x ∈ categoriesWrittenFilter [inactiveCategory]
        ↔ (x ∈ [inactiveCategory] ∧ x.isActive = true))
    ∧ getCategoryByIdWrittenBranches [inactiveCategory] 1
        = ⟨200, none, some inactiveCategory⟩ :=
  category_reads_unreachable [inactiveCategory] 1 inactiveCategory rfl

end Forum
